import Mathlib

/-!
Verification development for the AI resume/cover-letter generator repository.

We shallowly embed the Python modules `generator/pdf_generator.py`
(`PDFCreator._parse_resume_text`), `generator/ai_generator.py`
(`AIGenerator.generate_resume`, `_generate_resume_template`,
`generate_cover_letter`, `_generate_cover_letter_template`) and
`generator/data_manager.py` (`DataManager.get_job_applications`,
`update_application_status`).

Text is modelled as `List Char` (`Str`); every Python string operation used
by the code (`strip`, `upper`, `lower`, `split`, `join`, `replace`,
substring containment, `startswith`) is re-implemented structurally on
`List Char` so that all definitions are executable and kernel-reducible.
-/

/-- Strings are modelled as lists of characters. -/
abbrev Str := List Char

/-- The whitespace characters stripped by Python `str.strip()`
(ASCII subset: space, tab, newline, carriage return, vertical tab, form feed). -/
def isSpaceChar (c : Char) : Bool :=
  c == ' ' || c == '\t' || c == '\n' || c == '\r' || c == '\x0b' || c == '\x0c'

/-- Drop leading whitespace (Python `lstrip`). -/
def dropSpace : Str → Str
  | [] => []
  | c :: cs => if isSpaceChar c then dropSpace cs else c :: cs

/-- Drop trailing whitespace (Python `rstrip`). -/
def dropSpaceEnd (s : Str) : Str := (dropSpace s.reverse).reverse

/-- Python `str.strip()`. -/
def trimL (s : Str) : Str := dropSpace (dropSpaceEnd s)

/-- Python `str.upper()` (ASCII letters; all characters appearing in the
sources are unaffected otherwise). -/
def toUpperL (s : Str) : Str := s.map Char.toUpper

/-- Python `str.lower()` (ASCII letters). -/
def toLowerL (s : Str) : Str := s.map Char.toLower

/-- Does `s` start with `pat`?  (Python `str.startswith`.) -/
def startsWithL (s pat : Str) : Bool :=
  match s, pat with
  | _, [] => true
  | [], _ :: _ => false
  | c :: cs, p :: ps => c == p && startsWithL cs ps

/-- Does `pat` occur as a contiguous substring of `s`?  (Python `pat in s`.) -/
def containsL (s pat : Str) : Bool :=
  match s with
  | [] => pat.isEmpty
  | _ :: cs => startsWithL s pat || containsL cs pat

/-- Python `text.split('\n')`: split on newlines, keeping empty pieces. -/
def splitNl : Str → List Str
  | [] => [[]]
  | '\n' :: cs => [] :: splitNl cs
  | c :: cs =>
    match splitNl cs with
    | [] => [[c]]
    | l :: ls => (c :: l) :: ls

/-- Python `'\n'.join(lines)`. -/
def joinNl : List Str → Str
  | [] => []
  | [l] => l
  | l :: l' :: ls => l ++ '\n' :: joinNl (l' :: ls)

/-- Python `''.join(char for char in s if char not in ['\x7b', '\x7d'])`:
remove all brace characters. -/
def noBraceChar (c : Char) : Bool := !(c == '\x7b' || c == '\x7d')

def removeBraces (s : Str) : Str := s.filter noBraceChar

/-- The mis-decoded bullet artifact sequence stripped by the code:
Python literal of three characters. -/
def bulletArtifact : Str := "‚Ä¢".data

/-- Python `line.replace('‚Ä¢', '')`: left-to-right single-pass removal of
every occurrence of the three-character artifact. -/
def stripArtifactL : Str → Str
  | '‚' :: 'Ä' :: '¢' :: rest => stripArtifactL rest
  | c :: rest => c :: stripArtifactL rest
  | [] => []

section ParseResumeText

/-!
`PDFCreator._parse_resume_text` (pdf_generator.py, lines 180-240).

The Python function initialises a dict with exactly the seven literal keys
`name, contact, summary, skills, experience, education, additional` and only
ever assigns through those literals or through `current_section`, which is
only ever `None` or one of the four literals `summary, skills, experience,
education`.  Dict assignment in Python never raises, so the dict is
faithfully modelled by a record with seven fields and `current_section` by
`Option SectionKey`.
-/

inductive SectionKey where
  | summary
  | skills
  | experience
  | education
deriving DecidableEq, Repr

structure Sections where
  name : Str
  contact : Str
  summary : Str
  skills : Str
  experience : Str
  education : Str
  additional : Str
deriving DecidableEq, Repr

def emptySections : Sections :=
  { name := [], contact := [], summary := [], skills := [],
    experience := [], education := [], additional := [] }

/-- `sections[k]` for the four body keys. -/
def Sections.get (s : Sections) : SectionKey → Str
  | .summary => s.summary
  | .skills => s.skills
  | .experience => s.experience
  | .education => s.education

/-- `sections[k] = v` for the four body keys. -/
def Sections.set (s : Sections) : SectionKey → Str → Sections
  | .summary, v => { s with summary := v }
  | .skills, v => { s with skills := v }
  | .experience, v => { s with experience := v }
  | .education, v => { s with education := v }

/-- The section-header detection chain (pdf_generator.py lines 203-223):
case-insensitive substring tests, in the Python `elif` order. -/
def headerOf (lineUpper : Str) : Option SectionKey :=
  if containsL lineUpper ("PROFESSIONAL SUMMARY").data then some .summary
  else if containsL lineUpper ("TECHNICAL SKILLS").data
       || containsL lineUpper ("SKILLS").data then some .skills
  else if containsL lineUpper ("PROFESSIONAL EXPERIENCE").data
       || containsL lineUpper ("EXPERIENCE").data then some .experience
  else if containsL lineUpper ("EDUCATION").data then some .education
  else none

structure ParseState where
  sections : Sections
  currentSection : Option SectionKey
  currentContent : List Str
deriving DecidableEq, Repr

/-- `if current_section and current_content: sections[current_section] =
'\n'.join(current_content)` — note this is an assignment, overwriting
whatever the section already held. -/
def flushState (st : ParseState) : Sections :=
  match st.currentSection with
  | none => st.sections
  | some k =>
    if st.currentContent.isEmpty then st.sections
    else st.sections.set k (joinNl st.currentContent)

/-- One iteration of the line loop of `_parse_resume_text`
(pdf_generator.py lines 197-234). -/
def processLine (st : ParseState) (rawLine : Str) : ParseState :=
  let line := trimL rawLine
  if line.isEmpty || startsWithL line ("\x7d").data || startsWithL line ("\x7b").data then
    st
  else
    match headerOf (toUpperL line) with
    | some k =>
      { sections := flushState st, currentSection := some k, currentContent := [] }
    | none =>
      if st.sections.name.isEmpty && !containsL line ("@").data
         && !containsL line ("http").data then
        { st with sections := { st.sections with name := line } }
      else if containsL line ("@").data || containsL line ("|").data
           || containsL line ("Phone").data || containsL line ("Email").data then
        { st with sections :=
            { st.sections with contact := trimL (stripArtifactL line) } }
      else
        match st.currentSection with
        | some _ => { st with currentContent := st.currentContent ++ [line] }
        | none =>
          { st with sections :=
              { st.sections with
                additional := st.sections.additional ++ line ++ ('\n' :: []) } }

/-- `PDFCreator._parse_resume_text` (pdf_generator.py lines 180-240). -/
def parse_resume_text (resume_text : Str) : Sections :=
  flushState ((splitNl resume_text).foldl processLine
    { sections := emptySections, currentSection := none, currentContent := [] })

/-- The seven recognized section keys, in the order the dict is initialised. -/
def sectionKeyNames : List Str :=
  [("name").data, ("contact").data, ("summary").data, ("skills").data,
   ("experience").data, ("education").data, ("additional").data]

/-- View of the result record as a key-value mapping. -/
def Sections.toPairs (s : Sections) : List (Str × Str) :=
  [(("name").data, s.name), (("contact").data, s.contact),
   (("summary").data, s.summary), (("skills").data, s.skills),
   (("experience").data, s.experience), (("education").data, s.education),
   (("additional").data, s.additional)]

end ParseResumeText

section DataManager

/-!
`DataManager` (data_manager.py).  JSON values are modelled by `JVal`; the
applications file by `FileContent` (missing file, empty file, text that is
not valid JSON, or a parsed JSON value).  File-reading and -writing is
modelled by passing the file state in and out.
-/

inductive JVal where
  | null
  | bool (b : Bool)
  | num (n : Int)
  | str (s : Str)
  | arr (xs : List JVal)
  | obj (fields : List (Str × JVal))
deriving Repr

/-- Python `isinstance(item, dict)`. -/
def JVal.isObj : JVal → Bool
  | .obj _ => true
  | _ => false

/-- Python dict assignment `d[k] = v`: replace in place if the key exists,
otherwise append. -/
def setField : List (Str × JVal) → Str → JVal → List (Str × JVal)
  | [], k, v => [(k, v)]
  | (k', v') :: rest, k, v =>
    if k' = k then (k, v) :: rest else (k', v') :: setField rest k v

/-- Python dict lookup `d.get(k)`. -/
def lookupField : List (Str × JVal) → Str → Option JVal
  | [], _ => none
  | (k', v) :: rest, k => if k' = k then some v else lookupField rest k

/-- State of the applications file. -/
inductive FileContent where
  | missing
  | empty
  | invalid
  | parsed (j : JVal)
deriving Repr

/-- `DataManager.get_job_applications` (data_manager.py lines 72-120).
Returns the list handed back to the caller together with the new file
state.  A missing or empty file is initialised to `[]`; a JSON decode error
resets the file to `[]`; a parsed value that is not a list yields `[]`
without rewriting the file; non-dict entries are dropped, and the cleaned
list is written back only when something was dropped. -/
def get_job_applications : FileContent → List JVal × FileContent
  | .missing => ([], .parsed (.arr []))
  | .empty => ([], .parsed (.arr []))
  | .invalid => ([], .parsed (.arr []))
  | .parsed j =>
    let data := match j with | .arr xs => xs | _ => []
    let clean_data := data.filter JVal.isObj
    if clean_data.length ≠ data.length then (clean_data, .parsed (.arr clean_data))
    else (clean_data, .parsed j)

/-- `applications[app_index]['status'] = new_status;
applications[app_index]['updated_at'] = datetime.now().isoformat()`.
Entries returned by `get_job_applications` are always dicts, so only the
`obj` case is reachable. -/
def setStatusFields (a : JVal) (new_status now : Str) : JVal :=
  match a with
  | .obj f =>
    .obj (setField (setField f (("status").data) (.str new_status))
      (("updated_at").data) (.str now))
  | other => other

/-- `DataManager.update_application_status` (data_manager.py lines 122-136).
`now` stands for `datetime.now().isoformat()`.  Returns the Python boolean
result together with the file state after the call. -/
def update_application_status (file : FileContent) (app_index : Int)
    (new_status now : Str) : Bool × FileContent :=
  let res := get_job_applications file
  let applications := res.1
  if 0 ≤ app_index ∧ app_index < (applications.length : Int) then
    let i := app_index.toNat
    let apps2 := applications.set i
      (setStatusFields (applications.getD i JVal.null) new_status now)
    (true, .parsed (.arr apps2))
  else
    (false, res.2)

end DataManager

section AIGenerator

/-!
`AIGenerator` (ai_generator.py).  The user profile is a Python dict read
through `profile.get(key, default)`; it is modelled as a record of optional
fields.  The outbound Together AI call is modelled by two parameters: the
credential lookup `api_key` (`os.getenv("TOGETHER_API_KEY")`) and the
completion `response` (`none` models an exception raised by the remote
call, which the code catches and turns into the template fallback).
-/

structure Profile where
  name : Option Str := none
  email : Option Str := none
  phone : Option Str := none
  location : Option Str := none
  current_title : Option Str := none
  skills : Option Str := none
  experience : Option Str := none
  education : Option Str := none

/-- `AIGenerator._generate_resume_template` (ai_generator.py lines 281-311):
a fixed f-string filled with profile fields, then `strip()`ped.  The
interior indentation of the Python source literal (eight spaces) is part of
the string and is reproduced exactly. -/
def generate_resume_template (profile : Profile) (_job_description : Str) : Str :=
  let name := profile.name.getD (("Your Name").data)
  let email := profile.email.getD (("email@example.com").data)
  let phone := profile.phone.getD (("Phone").data)
  let skills := profile.skills.getD (("Skills not specified").data)
  let experience := profile.experience.getD (("Experience not specified").data)
  let education := profile.education.getD (("Education not specified").data)
  trimL (("\n        ").data ++ name
    ++ ("\n        ").data ++ email ++ (" | ").data ++ phone
    ++ ("\n\n        PROFESSIONAL SUMMARY\n        Experienced professional with skills in ").data
    ++ skills
    ++ (". \n        Seeking to leverage expertise in a challenging new role.\n\n        TECHNICAL SKILLS\n        • ").data
    ++ skills
    ++ ("\n\n        PROFESSIONAL EXPERIENCE\n        • ").data
    ++ experience
    ++ ("\n\n        EDUCATION\n        • ").data
    ++ education
    ++ ("\n        ").data)

/-- Python `', '.join(x)` where `x` is a string: joins the *characters*
with `", "` (this is what `_generate_cover_letter_template` does when the
profile's skills field is a string). -/
def join_comma : Str → Str
  | [] => []
  | [c] => [c]
  | c :: d :: rest => c :: ',' :: ' ' :: join_comma (d :: rest)

/-- `AIGenerator._generate_cover_letter_template` (ai_generator.py lines
528-548).  The Python code also reads an email default it never uses.
`skills` is `', '.join(profile.get('skills', ['Python']))`: `"Python"` when
the field is absent, otherwise the characters of the field joined with
`", "`. -/
def generate_cover_letter_template (profile : Profile)
    (company_name position_title _job_description : Str) : Str :=
  let name := profile.name.getD (("Your Name").data)
  let skills := match profile.skills with
    | none => ("Python").data
    | some s => join_comma s
  let experience := profile.experience.getD (("several years of experience").data)
  trimL (("\n    Dear Hiring Manager,\n\n    I am writing to express my interest in the ").data
    ++ position_title ++ (" position at ").data ++ company_name
    ++ (". With my background in ").data ++ skills
    ++ (", I am confident in my ability to contribute effectively to your team.\n\n    My experience includes ").data
    ++ experience
    ++ (", and I have a proven track record of solving complex problems and delivering high-quality results.\n\n    Thank you for considering my application. I look forward to the opportunity to discuss how I can contribute to your organization.\n\n    Sincerely,\n    ").data
    ++ name ++ ("\n        ").data)

/-- Python `s.split(sep)` for a non-empty separator, implemented with a
fuel argument equal to the length of the string (always sufficient). -/
def splitOnAux (sep : Str) : Nat → Str → List Str
  | _, [] => [[]]
  | 0, s => [s]
  | Nat.succ n, c :: cs =>
    if !sep.isEmpty && startsWithL (c :: cs) sep then
      [] :: splitOnAux sep n (List.drop sep.length (c :: cs))
    else
      match splitOnAux sep n cs with
      | [] => [[c]]
      | l :: ls => (c :: l) :: ls

def splitOnL (sep s : Str) : List Str := splitOnAux sep s.length s

/-- Python `s.split(m)[-1]`: the text after the last occurrence of `m`
(or all of `s` when `m` does not occur). -/
def afterLast (m s : Str) : Str := (splitOnL m s).getLastD []

/-- Python `s.split(m)[0]`: the text before the first occurrence of `m`
(or all of `s` when `m` does not occur). -/
def beforeFirst (m s : Str) : Str := (splitOnL m s).headD []

/-- Python `s.replace('•', '• ')` (real bullet U+2022): insert a space
after every bullet character. -/
def bulletSpace : Str → Str
  | [] => []
  | '•' :: rest => '•' :: ' ' :: bulletSpace rest
  | c :: rest => c :: bulletSpace rest

/-- The code-fence part scan of `generate_resume` (ai_generator.py lines
161-165): the first part of the ``` split free of `def `, `print(` and
`class `, stripped; if none qualifies the text is left unchanged. -/
def firstCleanPart : List Str → Option Str
  | [] => none
  | p :: ps =>
    if !containsL p (("def ").data) && !containsL p (("print(").data)
       && !containsL p (("class ").data) then some (trimL p)
    else firstCleanPart ps

/-- ai_generator.py lines 158-165. -/
def code_fence_fix (raw : Str) : Str :=
  if containsL raw (("def ").data) || containsL raw (("```").data)
     || containsL raw (("print(").data) then
    if containsL raw (("```").data) then
      match firstCleanPart (splitOnL (("```").data) raw) with
      | some p => p
      | none => raw
    else raw
  else raw

/-- The preamble scan of `generate_resume` (ai_generator.py lines 186-191):
find the first line starting the real content and keep from there on. -/
def findFromLine (pname : Str) : List Str → Option (List Str)
  | [] => none
  | l :: ls =>
    if startsWithL (trimL l) (("**").data) || startsWithL (trimL l) pname
       || containsL l (("Dear").data) then some (l :: ls)
    else findFromLine pname ls

/-- ai_generator.py lines 186-191; `pname` is `profile.get('name', '')`. -/
def preamble_cut (pname s : Str) : Str :=
  if containsL s (("\n").data) then
    match findFromLine pname (splitNl s) with
    | some ls => joinNl ls
    | none => s
  else s

/-- The trailing-explanation triggers of ai_generator.py line 194. -/
def triggerList : List Str :=
  [("this code").data, ("note that").data, ("recommended to use").data,
   ("simple implementation").data, ("function").data, ("def ").data,
   ("return ").data]

/-- Index of the last newline of a string (Python `s.rfind('\n')`,
`none` for `-1`). -/
def lastNlPos : Str → Option Nat
  | [] => none
  | c :: cs =>
    match lastNlPos cs with
    | some n => some (n + 1)
    | none => if c = '\n' then some 0 else none

/-- ai_generator.py lines 194-200: cut the text at the last newline before
the first trigger found in the lowercased text (dropping the final
character when that prefix has no newline, Python `s[:-1]`). -/
def trigger_cut (s : Str) : Str :=
  let low := toLowerL s
  match triggerList.find? (fun t => containsL low t) with
  | none => s
  | some t =>
    let parts := splitOnL t low
    if parts.length > 1 then
      match lastNlPos (parts.headD []) with
      | some n => trimL (s.take n)
      | none => trimL (s.take (s.length - 1))
    else s

/-- The `formatted_resume` f-string of ai_generator.py lines 216-230: the
fixed skeleton (with its twelve-space source indentation) filled with the
header fields and the four extracted section parts. -/
def fullFormatted (name email phone location summary_part skills_part
    experience_part education_part : Str) : Str :=
  name
    ++ ("\n            ").data ++ email ++ (" | ").data ++ phone ++ (" | ").data ++ location
    ++ ("\n\n            PROFESSIONAL SUMMARY\n            ").data ++ summary_part
    ++ ("\n\n            TECHNICAL SKILLS\n            ").data ++ skills_part
    ++ ("\n\n            PROFESSIONAL EXPERIENCE\n            ").data ++ experience_part
    ++ ("\n\n            EDUCATION\n            ").data ++ education_part
    ++ ("\n            ").data

/-- The value returned by `AIGenerator.generate_resume` on a successful
API call (ai_generator.py lines 155-233 and 275).  Lines 168-180 compute a
`clean_text` that line 183 immediately overwrites with the stripped
`raw_text`, and lines 235-273 edit `clean_text` after `formatted_resume`
has been built; neither affects the returned string, which is
`formatted_resume` with all brace characters removed and stripped.  The
profile's `current_title` default is read but unused. -/
def resume_parts (profile : Profile) (response_text : Str) : Str × Str × Str × Str :=
  let raw1 := code_fence_fix (trimL response_text)
  let clean1 := preamble_cut (profile.name.getD []) (trimL raw1)
  let clean_text := trimL (trimL (trigger_cut clean1))
  let summary_part := if containsL clean_text (("Summary:").data) then
      trimL (beforeFirst (("Skills:").data) (afterLast (("Summary:").data) clean_text))
    else ("Summary not available.").data
  let skills_part := if containsL clean_text (("Skills:").data) then
      bulletSpace (trimL (beforeFirst (("Experience:").data)
        (afterLast (("Skills:").data) clean_text)))
    else ("Skills not available.").data
  let experience_part := if containsL clean_text (("Experience:").data) then
      bulletSpace (trimL (beforeFirst (("Education:").data)
        (afterLast (("Experience:").data) clean_text)))
    else ("Experience not available.").data
  let education_part := if containsL clean_text (("Education:").data) then
      trimL (beforeFirst (("\x7d").data) (afterLast (("Education:").data) clean_text))
    else ("Education not available.").data
  (summary_part, skills_part, experience_part, education_part)

def resume_post (profile : Profile) (response_text : Str) : Str :=
  trimL (removeBraces (fullFormatted
    (profile.name.getD (("Your Name").data))
    (profile.email.getD (("email@example.com").data))
    (profile.phone.getD (("Phone").data))
    (profile.location.getD (("Location").data))
    (resume_parts profile response_text).1
    (resume_parts profile response_text).2.1
    (resume_parts profile response_text).2.2.1
    (resume_parts profile response_text).2.2.2))

/-- `AIGenerator.generate_resume` (ai_generator.py lines 108-279).
`api_key = none` models a missing `TOGETHER_API_KEY`; `response = none`
models an exception from the remote call (caught at line 277). -/
def generate_resume (api_key : Option Str) (response : Option Str)
    (profile : Profile) (job_description : Str) : Str :=
  match api_key with
  | none => generate_resume_template profile job_description
  | some _ =>
    match response with
    | some raw => resume_post profile raw
    | none => generate_resume_template profile job_description

/-- Python `s.endswith(pat)`. -/
def endsWithL (s pat : Str) : Bool := startsWithL s.reverse pat.reverse

/-- The closing phrases of ai_generator.py line 479. -/
def closingSigns : List Str :=
  [("Sincerely,").data, ("Best regards,").data, ("Yours truly,").data,
   ("Kind regards,").data]

def isClosingStart (l : Str) : Bool :=
  closingSigns.any (fun c => startsWithL (trimL l) c)

/-- The line-collection loop of `generate_cover_letter` (ai_generator.py
lines 480-503): append each line; a closing line sets the flag and skips
the stop check; once the flag is set, stop right after a non-empty line
preceded by a closing line. -/
def collectLines (found : Bool) (acc : List Str) : List Str → List Str
  | [] => acc
  | l :: ls =>
    let acc2 := acc ++ [l]
    if isClosingStart l then collectLines true acc2 ls
    else if found && acc2.length ≥ 2
        && closingSigns.any (fun c => startsWithL (trimL (acc.getLastD [])) c)
        && !(trimL l).isEmpty then acc2
    else collectLines found acc2 ls

/-- The step-6 scan of `generate_cover_letter` (ai_generator.py lines
512-518): the end index `i + 2` for the first closing line that is not the
last line, if any. -/
def findClosingCut : List Str → Option Nat
  | [] => none
  | l :: ls =>
    if isClosingStart l && !ls.isEmpty then some 2
    else match findClosingCut ls with
      | some n => some (n + 1)
      | none => none

/-- ai_generator.py lines 508-519. -/
def step6_cut (final_text : Str) : Str :=
  if containsL final_text (("Here is the cover letter").data)
     || containsL final_text (("This code defines").data)
     || containsL final_text (("Note that").data) then
    let lines := splitNl final_text
    let end_index := (findClosingCut lines).getD lines.length
    trimL (joinNl (lines.take end_index))
  else final_text

/-- The code-fence part scan of `generate_cover_letter` (ai_generator.py
lines 461-466). -/
def findCoverPart : List Str → Option Str
  | [] => none
  | p :: ps =>
    if startsWithL (trimL p) (("Dear").data) || containsL p (("Hiring Manager").data) then
      some (trimL p)
    else findCoverPart ps

/-- The value returned by `AIGenerator.generate_cover_letter` on a
successful API call (ai_generator.py lines 452-521). -/
def cover_post (response_text : Str) : Str :=
  let raw0 := trimL response_text
  let raw1 := if startsWithL raw0 (("/*").data) then dropSpace (raw0.drop 2) else raw0
  let raw2 := if endsWithL raw1 (("*/").data) then dropSpaceEnd (raw1.take (raw1.length - 2)) else raw1
  let raw3 := if containsL raw2 (("```").data) then
      match findCoverPart (splitOnL (("```").data) raw2) with
      | some p => p
      | none => raw2
    else raw2
  let kept := (splitNl raw3).filter
    (fun l => !(startsWithL (trimL l) (("#").data) && (trimL l).length < 80))
  let clean := trimL (joinNl kept)
  let final_text := trimL (joinNl (collectLines false [] (splitNl clean)))
  step6_cut final_text

/-- `AIGenerator.generate_cover_letter` (ai_generator.py lines 403-525). -/
def generate_cover_letter (api_key : Option Str) (response : Option Str)
    (profile : Profile) (company_name position_title job_description : Str) : Str :=
  match api_key with
  | none =>
    generate_cover_letter_template profile company_name position_title job_description
  | some _ =>
    match response with
    | some raw => cover_post raw
    | none =>
      generate_cover_letter_template profile company_name position_title job_description

end AIGenerator

section HelperLemmas

theorem Sections.get_set_same (s : Sections) (k : SectionKey) (v : Str) :
    (s.set k v).get k = v := by
  cases k <;> rfl

theorem Sections.name_set (s : Sections) (k : SectionKey) (v : Str) :
    (s.set k v).name = s.name := by
  cases k <;> rfl

theorem isEmpty_false_of_ne_nil {α : Type} {l : List α} (h : l ≠ []) :
    l.isEmpty = false := by
  cases l with
  | nil => exact absurd rfl h
  | cons c cs => rfl

end HelperLemmas

/-- C1: for every raw input string the Normalizer `_parse_resume_text`
terminates with a mapping that contains each of the seven recognized
section keys, each bound to a string.  (In the embedding the function is
total on `Str`, which models the absence of exceptions: the Python body
performs only dict accesses through keys that are always present.) -/
theorem c1_normalizer_total_all_keys (raw : Str) :
    ((parse_resume_text raw).toPairs.map Prod.fst = sectionKeyNames) ∧
    (sectionKeyNames.all
      (fun k => ((parse_resume_text raw).toPairs.lookup k).isSome) = true) :=
  ⟨rfl, rfl⟩

/-- C2 counterexample: with input `"John Doe\nSKILLS\na\nSKILLS\nb"` the
content accumulated under the first `SKILLS` header is overwritten, not
merged: the resulting skills section is `"b"`, not `"a\nb"`. -/
theorem c2_counterexample :
    (parse_resume_text (("John Doe\nSKILLS\na\nSKILLS\nb").data)).skills = ("b").data ∧
    (parse_resume_text (("John Doe\nSKILLS\na\nSKILLS\nb").data)).skills ≠ ("a\nb").data := by
  exact ⟨by decide, by decide⟩

/-- C2 amended: when a recognized header line is matched while the cursor
points at section `j` with a non-empty accumulator, the accumulated lines
replace the previous content of section `j` outright — the new value is
`'\n'.join(current_content)` regardless of the value `v` the section
already held, so duplicated headers overwrite rather than merge. -/
theorem c2_flush_overwrites (st : ParseState) (line : Str) (j k : SectionKey) (v : Str)
    (hcur : st.currentSection = some j)
    (hcont : st.currentContent ≠ [])
    (hne : (trimL line).isEmpty = false)
    (hbr1 : startsWithL (trimL line) (("\x7d").data) = false)
    (hbr2 : startsWithL (trimL line) (("\x7b").data) = false)
    (hhdr : headerOf (toUpperL (trimL line)) = some k) :
    ((processLine { st with sections := st.sections.set j v } line).sections).get j
      = joinNl st.currentContent := by
  have hce : st.currentContent.isEmpty = false := isEmpty_false_of_ne_nil hcont
  simp [processLine, hne, hbr1, hbr2, hhdr, flushState, hcur, hce,
    Sections.get_set_same]

/-- C2 witness for `c2_flush_overwrites`. -/
theorem c2_flush_overwrites_witness :
    ((processLine
        { sections := Sections.set emptySections .skills (("old").data),
          currentSection := some SectionKey.skills,
          currentContent := [("a").data] }
        (("SKILLS").data)).sections).get .skills = joinNl [("a").data] :=
  c2_flush_overwrites
    { sections := emptySections, currentSection := some .skills,
      currentContent := [("a").data] }
    (("SKILLS").data) .skills .skills (("old").data)
    rfl (by decide) (by decide) (by decide) (by decide) (by decide)

/-- C3 counterexample: the pipe-only separator row `"| | |"` is not
discarded — it is captured as the document name, contributing to an output
field. -/
theorem c3_counterexample :
    (parse_resume_text (("| | |").data)).name = ("| | |").data ∧
    ("| | |").data ≠ ([] : Str) := by
  exact ⟨by decide, by decide⟩

/-- C3 amended: the Normalizer discards exactly the lines that are empty
after trimming or that begin with a brace character; such a line leaves
the whole parser state unchanged.  Pipe-only separator rows are not
discarded and can be captured as the name or contact line. -/
theorem c3_noise_lines_skipped (st : ParseState) (rawLine : Str)
    (h : trimL rawLine = [] ∨ startsWithL (trimL rawLine) (("\x7d").data) = true ∨
         startsWithL (trimL rawLine) (("\x7b").data) = true) :
    processLine st rawLine = st := by
  simp only [processLine]
  rcases h with h | h | h
  · simp [h, List.isEmpty_nil]
  · simp [h]
  · simp [h]

/-- C3 witness for `c3_noise_lines_skipped`. -/
theorem c3_noise_lines_skipped_witness :
    processLine
      { sections := emptySections, currentSection := none, currentContent := [] }
      (("\x7d 5 years").data)
      = { sections := emptySections, currentSection := none, currentContent := [] } :=
  c3_noise_lines_skipped _ _ (Or.inr (Or.inl (by decide)))

/-- C5 counterexample: for input `"John\nTECHNICAL SKILLS\n‚Ä¢ Python"`
the output skills section still contains the mis-decoded bullet artifact
sequence — the Normalizer does not strip it from skills lines. -/
theorem c5_counterexample :
    containsL (parse_resume_text (("John\nTECHNICAL SKILLS\n‚Ä¢ Python").data)).skills
      bulletArtifact = true := by
  decide

/-- C5 amended: the artifact replacement happens only on the contact
branch: a line classified as contact is stored as
`strip(replace(line, artifact, ''))`, while a line routed to the current
section accumulator (skills included) is appended verbatim, artifact and
all. -/
theorem c5_artifact_contact_only (st : ParseState) (rawLine : Str)
    (hne : (trimL rawLine).isEmpty = false)
    (hbr1 : startsWithL (trimL rawLine) (("\x7d").data) = false)
    (hbr2 : startsWithL (trimL rawLine) (("\x7b").data) = false)
    (hhdr : headerOf (toUpperL (trimL rawLine)) = none)
    (hname : (st.sections.name.isEmpty && !containsL (trimL rawLine) (("@").data)
      && !containsL (trimL rawLine) (("http").data)) = false) :
    ((containsL (trimL rawLine) (("@").data) || containsL (trimL rawLine) (("|").data)
        || containsL (trimL rawLine) (("Phone").data)
        || containsL (trimL rawLine) (("Email").data)) = true →
      (processLine st rawLine).sections.contact = trimL (stripArtifactL (trimL rawLine))) ∧
    ((containsL (trimL rawLine) (("@").data) || containsL (trimL rawLine) (("|").data)
        || containsL (trimL rawLine) (("Phone").data)
        || containsL (trimL rawLine) (("Email").data)) = false →
      ∀ k, st.currentSection = some k →
        (processLine st rawLine).currentContent = st.currentContent ++ [trimL rawLine]) := by
  constructor
  · intro hc
    simp [processLine, hne, hbr1, hbr2, hhdr, hname, hc]
  · intro hc k hk
    simp [processLine, hne, hbr1, hbr2, hhdr, hname, hc, hk]

section DataManagerLemmas

theorem lookupField_setField_same (f : List (Str × JVal)) (k : Str) (v : JVal) :
    lookupField (setField f k v) k = some v := by
  induction f with
  | nil => simp [setField, lookupField]
  | cons kv rest ih =>
    obtain ⟨k', v'⟩ := kv
    by_cases h : k' = k
    · simp [setField, h, lookupField]
    · simp [setField, h, lookupField, ih]

theorem lookupField_setField_diff (f : List (Str × JVal)) (k k' : Str) (v : JVal)
    (h : k' ≠ k) : lookupField (setField f k v) k' = lookupField f k' := by
  have h2 : ∀ a : Str, a = k → ¬(a = k') := fun a ha hb => h (hb ▸ ha ▸ rfl)
  induction f with
  | nil => simp [setField, lookupField, h2 k rfl]
  | cons kv rest ih =>
    obtain ⟨k'', v''⟩ := kv
    by_cases hk : k'' = k
    · subst hk
      simp [setField, lookupField, h2 k'' rfl]
    · simp [setField, hk, lookupField, ih]

end DataManagerLemmas

/-- Concrete application records for the data-manager claims. -/
def fieldsA : List (Str × JVal) :=
  [(("company_name").data, .str (("A").data)),
   (("status").data, .str (("pending").data))]

def appB : JVal :=
  .obj [(("company_name").data, .str (("B").data)),
        (("status").data, .str (("pending").data))]

def appC : JVal :=
  .obj [(("company_name").data, .str (("C").data)),
        (("status").data, .str (("pending").data))]

def fileABC : FileContent := .parsed (.arr [.obj fieldsA, appB, appC])

def tNow : Str := ("2026-10-12T00:00:00").data

/-- Fields of the first stored record, when the file holds an array whose
head is an object. -/
def firstStoredFields (fc : FileContent) : Option (List (Str × JVal)) :=
  match fc with
  | .parsed (.arr (JVal.obj f :: _)) => some f
  | _ => none

/-- C6 counterexample: updating record 0 to "interview" does not change
only its status — the code also stamps a new `updated_at` field that the
original record did not have. -/
theorem c6_counterexample :
    (firstStoredFields (update_application_status fileABC 0 (("interview").data) tNow).2).map
      (fun f => lookupField f (("updated_at").data)) = some (some (.str tNow)) ∧
    lookupField fieldsA (("updated_at").data) = none :=
  ⟨rfl, rfl⟩

/-- C6 amended: on a stored list of three records,
`update_application_status 0 iv` succeeds and rewrites only the record at
index 0 — setting its `status` to `iv` and stamping `updated_at` — while
the records at indices 1 and 2 are stored back unchanged; for every
out-of-range index (negative or `≥ 3`) it returns failure and the stored
file is unchanged. -/
theorem c6_update_status_frame (fa fb fc : List (Str × JVal)) (iv now : Str) :
    (update_application_status (.parsed (.arr [.obj fa, .obj fb, .obj fc])) 0 iv now
      = (true, .parsed (.arr
          [.obj (setField (setField fa (("status").data) (.str iv))
              (("updated_at").data) (.str now)),
           .obj fb, .obj fc]))) ∧
    (lookupField (setField (setField fa (("status").data) (.str iv))
        (("updated_at").data) (.str now)) (("status").data) = some (.str iv)) ∧
    (∀ i : Int, i < 0 ∨ 3 ≤ i →
      update_application_status (.parsed (.arr [.obj fa, .obj fb, .obj fc])) i iv now
        = (false, .parsed (.arr [.obj fa, .obj fb, .obj fc]))) := by
  refine ⟨?_, ?_, ?_⟩
  · simp [update_application_status, get_job_applications, setStatusFields, JVal.isObj]
  · rw [lookupField_setField_diff _ _ _ _ (by decide)]
    exact lookupField_setField_same _ _ _
  · intro i hi
    have hcond : ¬(0 ≤ i ∧ i < ((3 : Nat) : Int)) := by omega
    simp [update_application_status, get_job_applications, JVal.isObj, hcond]
    omega

/-- C6 witness for `c6_update_status_frame`. -/
theorem c6_update_status_frame_witness :
    update_application_status
        (.parsed (.arr [.obj fieldsA, .obj fieldsA, .obj fieldsA])) 5
        (("interview").data) tNow
      = (false, .parsed (.arr [.obj fieldsA, .obj fieldsA, .obj fieldsA])) :=
  (c6_update_status_frame fieldsA fieldsA fieldsA (("interview").data) tNow).2.2 5
    (by omega)

/-- C7: reading an applications file holding
`[obj with company_name A, "garbage", 42]` returns exactly the one
well-formed record and rewrites the file to hold only it; a missing,
empty or malformed (JSON-undecodable) file resets to an empty array and
returns the empty list. -/
theorem c7_storage_resilience :
    (get_job_applications (.parsed (.arr
        [.obj [(("company_name").data, .str (("A").data))],
         .str (("garbage").data), .num 42]))
      = ([.obj [(("company_name").data, .str (("A").data))]],
         .parsed (.arr [.obj [(("company_name").data, .str (("A").data))]]))) ∧
    get_job_applications .missing = ([], .parsed (.arr [])) ∧
    get_job_applications .empty = ([], .parsed (.arr [])) ∧
    get_job_applications .invalid = ([], .parsed (.arr [])) :=
  ⟨rfl, rfl, rfl, rfl⟩

/-- C8: with no API key configured, `generate_resume` and
`generate_cover_letter` take the template path, whose output depends only
on the profile and the call arguments — two calls with arbitrarily
different remote-completion behaviours return identical strings. -/
theorem c8_fallback_deterministic (r1 r2 : Option Str) (p : Profile)
    (jd company pos : Str) :
    generate_resume none r1 p jd = generate_resume none r2 p jd ∧
    generate_cover_letter none r1 p company pos jd
      = generate_cover_letter none r2 p company pos jd :=
  ⟨rfl, rfl⟩

theorem flushState_name (st : ParseState) : (flushState st).name = st.sections.name := by
  unfold flushState
  cases st.currentSection with
  | none => rfl
  | some k =>
    by_cases h : st.currentContent.isEmpty <;> simp [h, Sections.name_set]

/-- Once the name field is non-empty, no later line of the pass can change
it (the capture branch requires the field to be empty and no other branch
writes it). -/
theorem processLine_name_persists (st : ParseState) (rawLine : Str)
    (h : st.sections.name ≠ []) :
    (processLine st rawLine).sections.name = st.sections.name := by
  have hne : st.sections.name.isEmpty = false := isEmpty_false_of_ne_nil h
  simp only [processLine]
  split
  · rfl
  · split
    · simp [flushState_name]
    · simp only [hne, Bool.false_and]
      rw [if_neg (by simp)]
      split
      · rfl
      · split <;> rfl

/-- A retained non-header line with no `@` and no `http` is captured as
the name when the name is still empty. -/
theorem processLine_name_capture (st : ParseState) (rawLine : Str)
    (h0 : st.sections.name = [])
    (hne : (trimL rawLine).isEmpty = false)
    (hbr1 : startsWithL (trimL rawLine) (("\x7d").data) = false)
    (hbr2 : startsWithL (trimL rawLine) (("\x7b").data) = false)
    (hhdr : headerOf (toUpperL (trimL rawLine)) = none)
    (hat : containsL (trimL rawLine) (("@").data) = false)
    (hhttp : containsL (trimL rawLine) (("http").data) = false) :
    (processLine st rawLine).sections.name = trimL rawLine := by
  simp [processLine, hne, hbr1, hbr2, hhdr, h0, hat, hhttp]

/-- C9: the name capture is one-shot first-match.  (1) A non-empty name is
never overwritten by any later line; (2) the first retained line with no
`@`, no `http` and no header match becomes the name; (3) on the lines
`John Doe / PROFESSIONAL SUMMARY / Jane Smith` the name is `John Doe` and
`Jane Smith` lands in the summary section. -/
theorem c9_name_one_shot :
    (∀ st rawLine, st.sections.name ≠ [] →
      (processLine st rawLine).sections.name = st.sections.name) ∧
    (∀ st rawLine,
      st.sections.name = [] →
      (trimL rawLine).isEmpty = false →
      startsWithL (trimL rawLine) (("\x7d").data) = false →
      startsWithL (trimL rawLine) (("\x7b").data) = false →
      headerOf (toUpperL (trimL rawLine)) = none →
      containsL (trimL rawLine) (("@").data) = false →
      containsL (trimL rawLine) (("http").data) = false →
      (processLine st rawLine).sections.name = trimL rawLine) ∧
    (parse_resume_text (("John Doe\nPROFESSIONAL SUMMARY\nJane Smith").data)).name
      = ("John Doe").data ∧
    (parse_resume_text (("John Doe\nPROFESSIONAL SUMMARY\nJane Smith").data)).summary
      = ("Jane Smith").data :=
  ⟨fun st l h => processLine_name_persists st l h,
   fun st l h0 h1 h2 h3 h4 h5 h6 => processLine_name_capture st l h0 h1 h2 h3 h4 h5 h6,
   by decide, by decide⟩

/-- C9 witness for `c9_name_one_shot`. -/
theorem c9_name_one_shot_witness :
    (processLine
        { sections := { emptySections with name := ("John Doe").data },
          currentSection := some SectionKey.summary, currentContent := [] }
        (("Jane Smith").data)).sections.name = ("John Doe").data :=
  c9_name_one_shot.1
    { sections := { emptySections with name := ("John Doe").data },
      currentSection := some SectionKey.summary, currentContent := [] }
    (("Jane Smith").data) (by decide)

/-- A concrete profile used for the canonical-document claims. -/
def sampleProfile : Profile :=
  { name := some (("John Doe").data), email := some (("john@example.com").data),
    phone := some (("123-456-7890").data), skills := some (("Python").data),
    experience := some (("Built web apps").data),
    education := some (("BSc Computer Science").data) }

set_option maxRecDepth 8000

/-- C4 counterexample: the canonical template-generated resume carries a
non-empty PROFESSIONAL SUMMARY body (the two fixed sentences), yet
re-parsing it yields an empty summary section — the summary body line
contains the substring `skills`, is treated as a SKILLS header boundary,
and its content is lost.  Normalization is not idempotent on the canonical
document. -/
theorem c4_counterexample :
    (parse_resume_text (generate_resume_template sampleProfile [])).summary = [] ∧
    containsL (generate_resume_template sampleProfile [])
      (("PROFESSIONAL SUMMARY\n        Experienced professional").data) = true := by
  exact ⟨by decide, by decide⟩

/-- C4 amended: re-parsing the template-generated canonical resume
reproduces the name, contact, skills, experience and education contents
(modulo whitespace), but the summary section comes back empty: its body
line is consumed as a SKILLS header (substring match on `skills`) and the
sentence that follows is flushed into the skills section and then
overwritten by the real TECHNICAL SKILLS content. -/
theorem c4_reparse_template :
    parse_resume_text (generate_resume_template sampleProfile []) =
      { name := ("John Doe").data,
        contact := ("john@example.com | 123-456-7890").data,
        summary := [],
        skills := ("• Python").data,
        experience := ("• Built web apps").data,
        education := ("• BSc Computer Science").data,
        additional := [] } := by
  decide

/-- C5 witness for `c5_artifact_contact_only`. -/
theorem c5_artifact_contact_only_witness :
    ((processLine
        { sections := { emptySections with name := ("John").data },
          currentSection := none, currentContent := [] }
        (("‚Ä¢ a@b.c").data)).sections.contact
      = trimL (stripArtifactL (trimL (("‚Ä¢ a@b.c").data)))) :=
  (c5_artifact_contact_only
    { sections := { emptySections with name := ("John").data },
      currentSection := none, currentContent := [] }
    (("‚Ä¢ a@b.c").data)
    (by decide) (by decide) (by decide) (by decide) (by decide)).1 (by decide)

section StringLemmas

theorem startsWithL_nil (s : Str) : startsWithL s [] = true := by
  cases s <;> rfl

theorem startsWithL_append_self (x y : Str) : startsWithL (x ++ y) x = true := by
  induction x with
  | nil => exact startsWithL_nil y
  | cons c cs ih => simp [startsWithL, ih]

theorem startsWithL_self (x : Str) : startsWithL x x = true := by
  have h := startsWithL_append_self x []
  rwa [List.append_nil] at h

theorem startsWith_mono {a b P : Str} (h : startsWithL a P = true) :
    startsWithL (a ++ b) P = true := by
  induction a generalizing P with
  | nil =>
    cases P with
    | nil => exact startsWithL_nil b
    | cons p ps => simp [startsWithL] at h
  | cons c cs ih =>
    cases P with
    | nil => exact startsWithL_nil _
    | cons p ps =>
      simp only [startsWithL, Bool.and_eq_true] at h
      simp only [List.cons_append, startsWithL, Bool.and_eq_true]
      exact ⟨h.1, ih h.2⟩

theorem dropSpace_cons_nonspace (c : Char) (t : Str) (h : isSpaceChar c = false) :
    dropSpace (c :: t) = c :: t := by
  simp [dropSpace, h]

theorem dropSpace_append_of_ne_nil (x y : Str) (h : dropSpace x ≠ []) :
    dropSpace (x ++ y) = dropSpace x ++ y := by
  induction x with
  | nil => exact absurd rfl h
  | cons c cs ih =>
    cases hc : isSpaceChar c with
    | true =>
      have h2 : dropSpace cs ≠ [] := by simpa [dropSpace, hc] using h
      simp [dropSpace, hc, ih h2]
    | false => simp [dropSpace, hc]

theorem dropSpace_append_of_nil (x y : Str) (h : dropSpace x = []) :
    dropSpace (x ++ y) = dropSpace y := by
  induction x with
  | nil => rfl
  | cons c cs ih =>
    cases hc : isSpaceChar c with
    | true =>
      have h2 : dropSpace cs = [] := by simpa [dropSpace, hc] using h
      simp [dropSpace, hc, ih h2]
    | false => simp [dropSpace, hc] at h

theorem dropSpaceEnd_append_of_ne_nil (x y : Str) (h : dropSpaceEnd y ≠ []) :
    dropSpaceEnd (x ++ y) = x ++ dropSpaceEnd y := by
  have h2 : dropSpace y.reverse ≠ [] := by
    intro hh
    exact h (by simp [dropSpaceEnd, hh])
  simp [dropSpaceEnd, List.reverse_append, dropSpace_append_of_ne_nil _ _ h2]

theorem dropSpaceEnd_append_of_nil (x y : Str) (h : dropSpaceEnd y = []) :
    dropSpaceEnd (x ++ y) = dropSpaceEnd x := by
  have h2 : dropSpace y.reverse = [] := by
    simpa [dropSpaceEnd] using congrArg List.reverse h
  simp [dropSpaceEnd, List.reverse_append, dropSpace_append_of_nil _ _ h2]

theorem mem_of_mem_dropSpace {c : Char} {s : Str} (h : c ∈ dropSpace s) : c ∈ s := by
  induction s with
  | nil => rw [dropSpace] at h; exact h
  | cons d ds ih =>
    cases hd : isSpaceChar d with
    | true =>
      rw [dropSpace, hd] at h
      exact List.mem_cons_of_mem _ (ih (by simp at h; exact h))
    | false =>
      rw [dropSpace, hd] at h
      simpa using h

theorem mem_of_mem_trimL {c : Char} {s : Str} (h : c ∈ trimL s) : c ∈ s := by
  have h1 : c ∈ dropSpaceEnd s := mem_of_mem_dropSpace h
  have h2 : c ∈ dropSpace s.reverse := by
    rw [dropSpaceEnd] at h1
    simpa using h1
  have h3 := mem_of_mem_dropSpace h2
  simpa using h3

theorem removeBraces_append (a b : Str) :
    removeBraces (a ++ b) = removeBraces a ++ removeBraces b := by
  simp [removeBraces, List.filter_append]

theorem removeBraces_of_all (a : Str) (h : a.all noBraceChar = true) :
    removeBraces a = a :=
  List.filter_eq_self.mpr (List.all_eq_true.mp h)

theorem noBrace_of_mem_out {c : Char} {s : Str} (h : c ∈ trimL (removeBraces s)) :
    noBraceChar c = true :=
  (List.mem_filter.mp (mem_of_mem_trimL h)).2

/-- If `x` is non-empty and unaffected by leading trim, and `y` is
non-empty and unaffected by trailing trim, then stripping
`x ++ y ++ tail` leaves the prefix `x ++ y` intact. -/
theorem trimL_anchor (x y tail : Str)
    (hxc : dropSpace x = x ∧ x ≠ [])
    (hyc : dropSpaceEnd y = y ∧ y ≠ []) :
    ∃ t2, trimL (x ++ y ++ tail) = x ++ y ++ t2 := by
  obtain ⟨hx, hxne⟩ := hxc
  obtain ⟨hy1, hy2⟩ := hyc
  have e3 : dropSpace (x ++ y) = x ++ y := by
    rw [dropSpace_append_of_ne_nil x y (by rw [hx]; exact hxne), hx]
  by_cases ht : dropSpaceEnd tail = []
  · refine ⟨[], ?_⟩
    have e1 : dropSpaceEnd (x ++ y ++ tail) = dropSpaceEnd (x ++ y) :=
      dropSpaceEnd_append_of_nil _ _ ht
    have e2 : dropSpaceEnd (x ++ y) = x ++ y := by
      rw [dropSpaceEnd_append_of_ne_nil x y (by rw [hy1]; exact hy2), hy1]
    rw [trimL, e1, e2, e3, List.append_nil]
  · refine ⟨dropSpaceEnd tail, ?_⟩
    have e1 : dropSpaceEnd (x ++ y ++ tail) = (x ++ y) ++ dropSpaceEnd tail :=
      dropSpaceEnd_append_of_ne_nil _ _ ht
    have e4 : dropSpace ((x ++ y) ++ dropSpaceEnd tail)
        = (x ++ y) ++ dropSpaceEnd tail := by
      rw [dropSpace_append_of_ne_nil (x ++ y) _ ?_, e3]
      rw [e3]
      intro hh
      exact hxne (List.append_eq_nil.mp hh).1
    rw [trimL, e1, e4, List.append_assoc]

/-- A non-empty prefix unaffected by leading trim stays so under append. -/
theorem dropSpace_append_self {u v : Str} (h : dropSpace u = u ∧ u ≠ []) :
    dropSpace (u ++ v) = u ++ v ∧ u ++ v ≠ [] := by
  constructor
  · rw [dropSpace_append_of_ne_nil u v (by rw [h.1]; exact h.2), h.1]
  · intro hh
    exact h.2 (List.append_eq_nil.mp hh).1

end StringLemmas

/-- The substrings `ps` occur, in order and without overlap, inside `s`. -/
inductive SeqIn : Str → List Str → Prop where
  | nil (s : Str) : SeqIn s []
  | cons (a p rest : Str) (ps : List Str) (h : SeqIn rest ps) :
      SeqIn (a ++ (p ++ rest)) (p :: ps)

/-- Stripping and brace-removal leave the skeleton of the rebuilt resume
intact up to (and including) the EDUCATION header: the output of
`trimL (fullFormatted ...)` is the full prefix through `EDUCATION`
followed by some tail. -/
theorem trim_full_shape (name email phone location a b c d : Str)
    (hx0 : dropSpace name = name) (hne : name ≠ []) :
    ∃ t2, trimL (fullFormatted name email phone location a b c d)
      = name ++ ("\n            ").data ++ email ++ (" | ").data ++ phone
          ++ (" | ").data ++ location ++ ("\n\n            ").data
          ++ ("PROFESSIONAL SUMMARY").data ++ ("\n            ").data ++ a
          ++ ("\n\n            ").data ++ ("TECHNICAL SKILLS").data
          ++ ("\n            ").data ++ b ++ ("\n\n            ").data
          ++ ("PROFESSIONAL EXPERIENCE").data ++ ("\n            ").data ++ c
          ++ ("\n\n            ").data ++ ("EDUCATION").data ++ t2 := by
  have hs1 : ("\n\n            PROFESSIONAL SUMMARY\n            ").data
      = ("\n\n            ").data ++ ("PROFESSIONAL SUMMARY").data
        ++ ("\n            ").data := by decide
  have hs2 : ("\n\n            TECHNICAL SKILLS\n            ").data
      = ("\n\n            ").data ++ ("TECHNICAL SKILLS").data
        ++ ("\n            ").data := by decide
  have hs3 : ("\n\n            PROFESSIONAL EXPERIENCE\n            ").data
      = ("\n\n            ").data ++ ("PROFESSIONAL EXPERIENCE").data
        ++ ("\n            ").data := by decide
  have hs4 : ("\n\n            EDUCATION\n            ").data
      = ("\n\n            ").data ++ ("EDUCATION").data
        ++ ("\n            ").data := by decide
  have hF : fullFormatted name email phone location a b c d
      = (name ++ ("\n            ").data ++ email ++ (" | ").data ++ phone
          ++ (" | ").data ++ location ++ ("\n\n            ").data
          ++ ("PROFESSIONAL SUMMARY").data ++ ("\n            ").data ++ a
          ++ ("\n\n            ").data ++ ("TECHNICAL SKILLS").data
          ++ ("\n            ").data ++ b ++ ("\n\n            ").data
          ++ ("PROFESSIONAL EXPERIENCE").data ++ ("\n            ").data ++ c
          ++ ("\n\n            ").data)
        ++ ("EDUCATION").data
        ++ (("\n            ").data ++ d ++ ("\n            ").data) := by
    unfold fullFormatted
    rw [hs1, hs2, hs3, hs4]
    simp [List.append_assoc]
  rw [hF]
  exact trimL_anchor _ _ _
    (dropSpace_append_self (dropSpace_append_self (dropSpace_append_self
      (dropSpace_append_self (dropSpace_append_self (dropSpace_append_self
      (dropSpace_append_self (dropSpace_append_self (dropSpace_append_self
      (dropSpace_append_self (dropSpace_append_self (dropSpace_append_self
      (dropSpace_append_self (dropSpace_append_self (dropSpace_append_self
      (dropSpace_append_self (dropSpace_append_self (dropSpace_append_self
      (dropSpace_append_self ⟨hx0, hne⟩)))))))))))))))))))
    (by decide)

/-- A chain of twenty-two juxtaposed segments contains its four designated
segments in order. -/
theorem seqIn_chain (v1 v2 v3 v4 v5 v6 v7 v8 p1 v9 v10 v11 p2 v12 v13 v14 p3
    v15 v16 v17 p4 t : Str) :
    SeqIn (v1 ++ v2 ++ v3 ++ v4 ++ v5 ++ v6 ++ v7 ++ v8 ++ p1 ++ v9 ++ v10 ++ v11
      ++ p2 ++ v12 ++ v13 ++ v14 ++ p3 ++ v15 ++ v16 ++ v17 ++ p4 ++ t)
      [p1, p2, p3, p4] := by
  have h : v1 ++ v2 ++ v3 ++ v4 ++ v5 ++ v6 ++ v7 ++ v8 ++ p1 ++ v9 ++ v10 ++ v11
      ++ p2 ++ v12 ++ v13 ++ v14 ++ p3 ++ v15 ++ v16 ++ v17 ++ p4 ++ t
      = (v1 ++ v2 ++ v3 ++ v4 ++ v5 ++ v6 ++ v7 ++ v8)
        ++ (p1 ++ ((v9 ++ v10 ++ v11)
          ++ (p2 ++ ((v12 ++ v13 ++ v14)
            ++ (p3 ++ ((v15 ++ v16 ++ v17) ++ (p4 ++ t))))))) := by
    simp [List.append_assoc]
  rw [h]
  exact SeqIn.cons _ _ _ _ (SeqIn.cons _ _ _ _ (SeqIn.cons _ _ _ _
    (SeqIn.cons _ _ _ _ (SeqIn.nil _))))

/-- C10: on the API path (credential present and the remote call returning
`raw`), for EVERY raw completion text the returned resume (1) contains no
brace characters, (2) begins with the profile name followed by the
`email | phone | location` contact line, and (3) contains the four fixed
headers in order.  The profile fields are assumed present, brace-free, and
the name non-empty and not starting with whitespace. -/
theorem c10_api_resume_invariants (api raw jd : Str) (p : Profile)
    (name email phone location : Str)
    (hpn : p.name = some name) (hpe : p.email = some email)
    (hpp : p.phone = some phone) (hpl : p.location = some location)
    (h1 : name.all noBraceChar = true) (h2 : email.all noBraceChar = true)
    (h3 : phone.all noBraceChar = true) (h4 : location.all noBraceChar = true)
    (hx0 : dropSpace name = name) (hne : name ≠ []) :
    (('\x7b') ∉ generate_resume (some api) (some raw) p jd ∧
     ('\x7d') ∉ generate_resume (some api) (some raw) p jd) ∧
    startsWithL (generate_resume (some api) (some raw) p jd)
      (name ++ ("\n            ").data ++ email ++ (" | ").data ++ phone
        ++ (" | ").data ++ location) = true ∧
    SeqIn (generate_resume (some api) (some raw) p jd)
      [("PROFESSIONAL SUMMARY").data, ("TECHNICAL SKILLS").data,
       ("PROFESSIONAL EXPERIENCE").data, ("EDUCATION").data] := by
  set sp := (resume_parts p raw).1 with hsp
  set sk := (resume_parts p raw).2.1 with hsk
  set ex := (resume_parts p raw).2.2.1 with hex
  set ed := (resume_parts p raw).2.2.2 with hed
  have hshape : generate_resume (some api) (some raw) p jd
      = trimL (removeBraces (fullFormatted name email phone location sp sk ex ed)) := by
    show resume_post p raw = _
    simp only [resume_post, hpn, hpe, hpp, hpl, Option.getD_some, hsp, hsk, hex, hed]
  have hRB : removeBraces (fullFormatted name email phone location sp sk ex ed)
      = fullFormatted name email phone location (removeBraces sp) (removeBraces sk)
          (removeBraces ex) (removeBraces ed) := by
    have e1 : removeBraces name = name := removeBraces_of_all _ h1
    have e2 : removeBraces email = email := removeBraces_of_all _ h2
    have e3 : removeBraces phone = phone := removeBraces_of_all _ h3
    have e4 : removeBraces location = location := removeBraces_of_all _ h4
    have l1 : removeBraces (("\n            ").data) = ("\n            ").data := by
      decide
    have l2 : removeBraces ((" | ").data) = (" | ").data := by decide
    have l3 : removeBraces (("\n\n            PROFESSIONAL SUMMARY\n            ").data)
        = ("\n\n            PROFESSIONAL SUMMARY\n            ").data := by decide
    have l4 : removeBraces (("\n\n            TECHNICAL SKILLS\n            ").data)
        = ("\n\n            TECHNICAL SKILLS\n            ").data := by decide
    have l5 : removeBraces (("\n\n            PROFESSIONAL EXPERIENCE\n            ").data)
        = ("\n\n            PROFESSIONAL EXPERIENCE\n            ").data := by decide
    have l6 : removeBraces (("\n\n            EDUCATION\n            ").data)
        = ("\n\n            EDUCATION\n            ").data := by decide
    simp only [fullFormatted, removeBraces_append, e1, e2, e3, e4, l1, l2, l3, l4, l5, l6]
  obtain ⟨t2, ht⟩ := trim_full_shape name email phone location
    (removeBraces sp) (removeBraces sk) (removeBraces ex) (removeBraces ed) hx0 hne
  refine ⟨⟨?_, ?_⟩, ?_, ?_⟩
  · rw [hshape]
    intro hmem
    have hb := noBrace_of_mem_out hmem
    rw [show noBraceChar ('\x7b') = false from by decide] at hb
    exact Bool.false_ne_true hb
  · rw [hshape]
    intro hmem
    have hb := noBrace_of_mem_out hmem
    rw [show noBraceChar ('\x7d') = false from by decide] at hb
    exact Bool.false_ne_true hb
  · rw [hshape, hRB, ht]
    apply startsWith_mono
    apply startsWith_mono
    apply startsWith_mono
    apply startsWith_mono
    apply startsWith_mono
    apply startsWith_mono
    apply startsWith_mono
    apply startsWith_mono
    apply startsWith_mono
    apply startsWith_mono
    apply startsWith_mono
    apply startsWith_mono
    apply startsWith_mono
    apply startsWith_mono
    apply startsWith_mono
    exact startsWithL_self _
  · rw [hshape, hRB, ht]
    exact seqIn_chain _ _ _ _ _ _ _ _ _ _ _ _ _ _ _ _ _ _ _ _ _ _

/-- A concrete fully-populated profile for the API-path witness. -/
def apiProfile : Profile :=
  { name := some (("John Doe").data), email := some (("jd@x.com").data),
    phone := some (("555-0100").data), location := some (("Austin, TX").data) }

/-- C10 witness for `c10_api_resume_invariants`. -/
theorem c10_api_resume_invariants_witness :
    (('\x7b') ∉ generate_resume (some (("k").data)) (some (("raw completion").data))
        apiProfile (("job").data) ∧
     ('\x7d') ∉ generate_resume (some (("k").data)) (some (("raw completion").data))
        apiProfile (("job").data)) ∧
    startsWithL (generate_resume (some (("k").data)) (some (("raw completion").data))
        apiProfile (("job").data))
      (("John Doe").data ++ ("\n            ").data ++ ("jd@x.com").data
        ++ (" | ").data ++ ("555-0100").data ++ (" | ").data
        ++ ("Austin, TX").data) = true ∧
    SeqIn (generate_resume (some (("k").data)) (some (("raw completion").data))
        apiProfile (("job").data))
      [("PROFESSIONAL SUMMARY").data, ("TECHNICAL SKILLS").data,
       ("PROFESSIONAL EXPERIENCE").data, ("EDUCATION").data] :=
  c10_api_resume_invariants (("k").data) (("raw completion").data) (("job").data)
    apiProfile (("John Doe").data) (("jd@x.com").data) (("555-0100").data)
    (("Austin, TX").data) rfl rfl rfl rfl (by decide) (by decide) (by decide)
    (by decide) (by decide) (by decide)
